import Mathlib

/-!
Verification of the `llm_translate` repository: a line-by-line visual-novel
script translator.  We give a shallow embedding of the pure core of the
code (`kag_workflow.py`, `llm_workflow.py`, `translate_workflow.py`,
`file_workflow.py`) and prove the specification claims about it.

Python strings are modelled as Lean `String` (a sequence of unicode code
points, matching Python's `str`).  Python `list` indexing that can raise
`IndexError` is modelled with `Option`.  The external language model is
modelled as an arbitrary function supplied as a parameter.  Wall-clock
times are modelled as rationals supplied as parameters.
-/

/-- Whitespace characters stripped by Python `str.strip()` (the ASCII
whitespace set, which is what the scripts in scope contain). -/
def isPySpace (c : Char) : Bool :=
  c = ' ' || c = '\t' || c = '\n' || c = '\r' || c = '\x0b' || c = '\x0c'

/-- Drop trailing elements satisfying `p` (helper for `str.strip()`). -/
def dropTrail (p : α → Bool) (l : List α) : List α :=
  (l.reverse.dropWhile p).reverse

/-- Strip elements satisfying `p` from both ends of a list. -/
def stripList (p : α → Bool) (l : List α) : List α :=
  dropTrail p (l.dropWhile p)

/-- Python `s.strip()`: remove leading and trailing whitespace. -/
def pyStrip (s : String) : String :=
  ⟨stripList isPySpace s.data⟩

/-- Python `s.split("\n")[0]`: the text before the first line break
(the whole string when it holds no line break). -/
def pyFirstLine (s : String) : String :=
  ⟨s.data.takeWhile (fun c => c ≠ '\n')⟩

/-- Python `needle in haystack` on strings: literal substring test. -/
def pyIn (needle haystack : String) : Bool :=
  (List.range (haystack.data.length + 1)).any
    (fun i => needle.data.isPrefixOf (haystack.data.drop i))

/-- Python `l[i]` for a non-negative index `i`: `none` models `IndexError`. -/
def pyGet (l : List α) (i : Nat) : Option α :=
  l.get? i

section KagWorkflow

/-- A record of `kag_db.json`: the speaker database value type. -/
structure Person where
  description : String
  gender : String
deriving DecidableEq

/-- `KagWorkflow._build_context_text_around`: scene excerpt around a line.
`w` is `self.window_size`.  Nat subtraction `line_num - w` coincides with
Python's `max(0, line_num - w)`. -/
def build_context_text_around (w : Nat) (all_lines : List String)
    (line_num : Nat) : String :=
  let start := line_num - w
  let stop := min all_lines.length (line_num + w + 1)
  "Контекст сцены:\n" ++ String.join ((all_lines.drop start).take (stop - start))

/-- `KagWorkflow._build_context_kag_description`: speaker or narration
description keyed by the stripped previous line. -/
def build_context_kag_description (kag_db : List (String × Person))
    (prev_line : String) : String :=
  match kag_db.lookup prev_line with
  | some person =>
      "прямая речь, " ++ person.description ++ ", пол: " ++ person.gender
  | none => "не прямая речь, описание мира вокруг или действий персонажей"

/-- `KagWorkflow._build_context_names_dict`: `key = value` lines for every
name-dictionary entry whose key occurs in the current line; empty string
when no entry matches. -/
def build_context_names_dict (names_map : List (String × String))
    (search_line : String) : String :=
  let relevant_names := names_map.filter (fun p => pyIn p.1 search_line)
  if relevant_names = [] then ""
  else
    "\nСловарь имён:\n" ++
      String.intercalate "\n"
        (relevant_names.map (fun p => p.1 ++ " = " ++ p.2)) ++ "\n"

/-- `KagWorkflow.build_context`: full context for the line at `line_num`.
The two list accesses are modelled with `Option`; `none` is Python's
`IndexError`. -/
def build_context (w : Nat) (names_map : List (String × String))
    (kag_db : List (String × Person)) (all_lines : List String)
    (line_num : Nat) : Option String :=
  (pyGet all_lines line_num).bind (fun search_line =>
  (if 0 < line_num then (pyGet all_lines (line_num - 1)).map pyStrip
   else some "").bind (fun prev_line =>
    let text_around := build_context_text_around w all_lines line_num
    let names_dictionary := build_context_names_dict names_map search_line
    let kag_description := build_context_kag_description kag_db prev_line
    if text_around = "" then some ""
    else some ("\n" ++ text_around ++ names_dictionary ++
      "\nОписание говорящего: " ++ kag_description ++ "\n")))

end KagWorkflow

section LlmWorkflow

/-- The postprocessing applied to each raw model response inside
`LlmWorkflow.generate_with_retry`: `.split("\n")[0].strip()`. -/
def postprocessResponse (s : String) : String :=
  pyStrip (pyFirstLine s)

/-- The prompt used at (0-based) attempt `i` of the retry loop.  Each
failed attempt prepends `f"Попытка номер {i+1}\n"`; the prompt evolution
does not depend on the model's responses along the executed path. -/
def retryPromptAt (prompt : String) : Nat → String
  | 0 => prompt
  | i + 1 => "Попытка номер " ++ toString (i + 1) ++ "\n" ++ retryPromptAt prompt i

/-- The retry loop of `LlmWorkflow.generate_with_retry`.  `gen i p` is the
model's raw response (`generate_response`) when called the `(i+1)`-st time
with prompt `p`; `i` is the loop counter, `fuel` the remaining attempts.
Returns the result together with the total number of model calls made. -/
def generateWithRetryGo (gen : Nat → String → String) :
    Nat → Nat → String → String × Nat
  | i, 0, _ => ("no response from llm", i)
  | i, fuel + 1, prompt =>
    let response := postprocessResponse (gen i prompt)
    if response ≠ "" then (response, i + 1)
    else generateWithRetryGo gen (i + 1) fuel
      ("Попытка номер " ++ toString (i + 1) ++ "\n" ++ prompt)

/-- `LlmWorkflow.generate_with_retry` (instrumented with a call counter):
retries `generate_response` up to `retry_count` times, returning the first
response that is non-empty after truncation to its first line and
stripping, or the sentinel `"no response from llm"` on exhaustion. -/
def generate_with_retry (gen : Nat → String → String) (prompt : String)
    (retry_count : Nat) : String × Nat :=
  generateWithRetryGo gen 0 retry_count prompt

/-- The postprocessed response the retry loop sees at attempt `i` (with the
prompt that attempt uses). -/
def respAt (gen : Nat → String → String) (prompt : String) (i : Nat) : String :=
  postprocessResponse (gen i (retryPromptAt prompt i))

end LlmWorkflow

section TranslateWorkflow

/-- The translation prompt template of
`TranslateWorkflow._translate_with_llm`, with `context` and `line`
interpolated. -/
def translate_prompt (line context : String) : String :=
  "Ты — литературный переводчик. Переведи на русский язык.\n" ++
  "Фразы внутри 「」 — это прямая речь, переводи их как прямую речь.  \n" ++
  "Учитывай контекст вокруг текста и описание персонажей для правильной передачи смысла. \n" ++
  "Если в тексте нет японского, тогда **повтори его дословно**.\n" ++
  "Вывод строго: одна строка перевода, без комментариев.\n" ++
  context ++ "\n" ++
  "Пример перевода:\n" ++
  "Японский: アンナは毎あさ七時に起きます。\n" ++
  "Русский: Анна встает в семь утра каждое утро.\n\n" ++
  "Японский: ......\n" ++
  "Русский: ......\n\n" ++
  "Переведи:\n" ++
  "Японский: " ++ line ++ "\n" ++
  "Русский:"

/-- The editing prompt template of `TranslateWorkflow._edit_with_llm`,
with the stage-1 output `line` interpolated. -/
def edit_prompt (line : String) : String :=
  "Ты — литературный редактор. \n" ++
  "Твоя задача — сделать исходный русский текст грамматически правильным, легким для чтения и убрать сложные обороты. \n" ++
  "Сохраняй точный смысл оригинала, не добавляй деталей или эмоций, которых там нет.\n" ++
  "Если текст не требует изменений, **повтори его дословно** — **включая все знаки препинания, пробелы и оформление**.\n\n" ++
  "Вывод: одна строка, без комментариев.\n\n" ++
  "Примеры:\n" ++
  "Текст: Ваа, свет луны отражается в тихой воде пруда, делая ночь казаться ещё более долгой.\n" ++
  "Вывод: Вау, лунный свет, отражаясь в тихой воде пруда, делал ночь бесконечно долгой.\n\n" ++
  "Текст: ......\n" ++
  "Вывод: ......\n\n" ++
  "Текст: " ++ line ++ "\n" ++
  "Вывод:"

/-- `TranslateWorkflow._edit_with_llm`.  `llm p name` models
`self.llm.generate_with_retry(p, ..., resp_name=name)`. -/
def edit_with_llm (llm : String → String → String) (line : String) : String :=
  llm (edit_prompt line) "edit"

/-- `TranslateWorkflow._translate_with_llm`: stage-1 translation call whose
raw result is passed straight into the editing stage. -/
def translate_with_llm (llm : String → String → String)
    (line context : String) : String :=
  edit_with_llm llm (llm (translate_prompt line context) "translation")

/-- `TranslateWorkflow.run_translate`: strips the input line and runs the
two-stage pipeline. -/
def run_translate (llm : String → String → String)
    (line context : String) : String :=
  translate_with_llm llm (pyStrip line) context

end TranslateWorkflow

section FileWorkflow

/-- The progress record printed by `FileWorkflow._print_progress`.
`elapsed` and `eta` are seconds as rationals. -/
structure Progress where
  elapsed : ℚ
  percent : Nat
  eta : ℚ
deriving DecidableEq

/-- `FileWorkflow._print_progress`: progress at the start of line
`line_num` of `total`, given the elapsed wall-clock seconds.  `percent`
uses integer floor division; `eta` is linear extrapolation and `0` when no
line has been processed yet. -/
def print_progress (elapsed : ℚ) (line_num total : Nat) : Progress :=
  { elapsed := elapsed
    percent := line_num * 100 / total
    eta := if 0 < line_num then elapsed / line_num * total - elapsed else 0 }

/-- Loop body of `FileWorkflow._segregate_and_translate_lines`,
instrumented with the progress reports it prints.  `tr n l` models
`self.translate.run_translate(l, context_for_line_n)` and `elapsedAt n`
the elapsed seconds when line `n` is reached; `n` is the current index. -/
def segregateGo (tr : Nat → String → String) (elapsedAt : Nat → ℚ)
    (total : Nat) : Nat → List String → List String × List Progress
  | _, [] => ([], [])
  | n, line :: rest =>
    let tail := segregateGo tr elapsedAt total (n + 1) rest
    if pyStrip line = "" then (line :: tail.1, tail.2)
    else ((tr n line ++ "\n") :: tail.1,
          print_progress (elapsedAt n) n total :: tail.2)

/-- `FileWorkflow._segregate_and_translate_lines` (instrumented): blank
lines pass through; each other line is translated (with a progress report
first) and gets a trailing `"\n"`. -/
def segregate_and_translate_lines (tr : Nat → String → String)
    (elapsedAt : Nat → ℚ) (all_lines : List String) :
    List String × List Progress :=
  segregateGo tr elapsedAt all_lines.length 0 all_lines

end FileWorkflow

section StringLemmas

theorem dropWhile_dropWhile (p : α → Bool) (l : List α) :
    (l.dropWhile p).dropWhile p = l.dropWhile p := by
  induction l with
  | nil => rfl
  | cons a l ih =>
    cases h : p a with
    | true => simpa [List.dropWhile_cons, h] using ih
    | false => simp [List.dropWhile_cons, h]

theorem dropWhile_eq_self_of_initial (p : α → Bool) {u m : List α}
    (hm : m.dropWhile p = m) (hu : u <+: m) : u.dropWhile p = u := by
  cases u with
  | nil => rfl
  | cons a t =>
    obtain ⟨s, hs⟩ := hu
    cases h : p a with
    | false => simp [List.dropWhile_cons, h]
    | true =>
      exfalso
      rw [← hs, List.cons_append, List.dropWhile_cons_of_pos h] at hm
      have hle : ((t ++ s).dropWhile p).length ≤ (t ++ s).length :=
        (List.dropWhile_suffix p).sublist.length_le
      have hlen := congrArg List.length hm
      simp only [List.length_cons, List.length_append] at hlen hle
      omega

theorem dropTrail_prefix_self (p : α → Bool) (l : List α) : dropTrail p l <+: l := by
  have h : (l.reverse.dropWhile p).reverse <+: l.reverse.reverse :=
    List.reverse_prefix.mpr (List.dropWhile_suffix p)
  simpa [dropTrail] using h

theorem dropTrail_dropTrail (p : α → Bool) (l : List α) :
    dropTrail p (dropTrail p l) = dropTrail p l := by
  unfold dropTrail
  rw [List.reverse_reverse, dropWhile_dropWhile]

theorem stripList_idem (p : α → Bool) (l : List α) :
    stripList p (stripList p l) = stripList p l := by
  unfold stripList
  rw [dropWhile_eq_self_of_initial p (dropWhile_dropWhile p l)
    (dropTrail_prefix_self p (l.dropWhile p)), dropTrail_dropTrail]

theorem pyStrip_idem (s : String) : pyStrip (pyStrip s) = pyStrip s :=
  congrArg String.mk (stripList_idem isPySpace s.data)

theorem mem_stripList {a : α} {p : α → Bool} {l : List α}
    (h : a ∈ stripList p l) : a ∈ l := by
  unfold stripList dropTrail at h
  rw [List.mem_reverse] at h
  have h1 := (List.dropWhile_suffix p).sublist.mem h
  rw [List.mem_reverse] at h1
  exact (List.dropWhile_suffix p).sublist.mem h1

theorem pyFirstLine_no_newline (s : String) : '\n' ∉ (pyFirstLine s).data := by
  intro h
  have := List.mem_takeWhile_imp h
  simp at this

theorem postprocessResponse_no_newline (s : String) :
    '\n' ∉ (postprocessResponse s).data :=
  fun h => pyFirstLine_no_newline s (mem_stripList h)

theorem append_ne_empty_of_length_pos (a b : String) (h : 0 < a.length) :
    a ++ b ≠ "" := by
  intro he
  have hl := congrArg String.length he
  rw [String.length_append] at hl
  have h0 : ("" : String).length = 0 := rfl
  omega

end StringLemmas

section RetryLemmas

theorem generateWithRetryGo_calls_le (gen : Nat → String → String) :
    ∀ (fuel i : Nat) (prompt : String),
      (generateWithRetryGo gen i fuel prompt).2 ≤ i + fuel := by
  intro fuel
  induction fuel with
  | zero => intro i prompt; simp [generateWithRetryGo]
  | succ f ih =>
    intro i prompt
    simp only [generateWithRetryGo]
    by_cases h : postprocessResponse (gen i prompt) ≠ ""
    · rw [if_pos h]; omega
    · rw [if_neg h]
      have := ih (i + 1) ("Попытка номер " ++ toString (i + 1) ++ "\n" ++ prompt)
      omega

theorem generateWithRetryGo_all_empty (gen : Nat → String → String) (p : String) :
    ∀ (fuel i : Nat),
      (∀ j, i ≤ j → j < i + fuel → respAt gen p j = "") →
      generateWithRetryGo gen i fuel (retryPromptAt p i) =
        ("no response from llm", i + fuel) := by
  intro fuel
  induction fuel with
  | zero => intro i _; simp [generateWithRetryGo]
  | succ f ih =>
    intro i h
    have hi : respAt gen p i = "" := h i (Nat.le_refl i) (by omega)
    have hi' : ¬ postprocessResponse (gen i (retryPromptAt p i)) ≠ "" := by
      simpa [respAt] using hi
    simp only [generateWithRetryGo]
    rw [if_neg hi']
    have hnext : ("Попытка номер " ++ toString (i + 1) ++ "\n" ++ retryPromptAt p i)
        = retryPromptAt p (i + 1) := rfl
    rw [hnext, ih (i + 1) (fun j h1 h2 => h j (by omega) (by omega))]
    have harith : i + 1 + f = i + (f + 1) := by omega
    rw [harith]

theorem generateWithRetryGo_first_success (gen : Nat → String → String) (p : String) :
    ∀ (fuel i j : Nat),
      i ≤ j → j < i + fuel →
      (∀ k, i ≤ k → k < j → respAt gen p k = "") →
      respAt gen p j ≠ "" →
      generateWithRetryGo gen i fuel (retryPromptAt p i) = (respAt gen p j, j + 1) := by
  intro fuel
  induction fuel with
  | zero => intro i j h1 h2; omega
  | succ f ih =>
    intro i j h1 h2 hk hj
    rcases Nat.eq_or_lt_of_le h1 with heq | hlt
    · subst heq
      have hj' : postprocessResponse (gen i (retryPromptAt p i)) ≠ "" := hj
      simp only [generateWithRetryGo]
      rw [if_pos hj']
      rfl
    · have hi : respAt gen p i = "" := hk i (Nat.le_refl i) hlt
      have hi' : ¬ postprocessResponse (gen i (retryPromptAt p i)) ≠ "" := by
        simpa [respAt] using hi
      simp only [generateWithRetryGo]
      rw [if_neg hi']
      have hnext : ("Попытка номер " ++ toString (i + 1) ++ "\n" ++ retryPromptAt p i)
          = retryPromptAt p (i + 1) := rfl
      rw [hnext]
      exact ih (i + 1) j hlt (by omega) (fun k hk1 hk2 => hk k (by omega) hk2) hj

theorem generateWithRetryGo_no_newline (gen : Nat → String → String) :
    ∀ (fuel i : Nat) (prompt : String),
      '\n' ∉ ((generateWithRetryGo gen i fuel prompt).1).data := by
  intro fuel
  induction fuel with
  | zero =>
    intro i prompt
    simp only [generateWithRetryGo]
    decide
  | succ f ih =>
    intro i prompt
    simp only [generateWithRetryGo]
    by_cases h : postprocessResponse (gen i prompt) ≠ ""
    · rw [if_pos h]
      exact postprocessResponse_no_newline _
    · rw [if_neg h]
      exact ih (i + 1) _

end RetryLemmas

section SliceLemmas

theorem drop_take_eq_range'_map (l : List α) (d : α) :
    ∀ s k : Nat, s + k ≤ l.length →
      (l.drop s).take k = (List.range' s k).map (fun i => l.getD i d) := by
  intro s k hk
  apply List.ext_getElem?
  intro i
  rw [List.getElem?_take, List.getElem?_map]
  by_cases hik : i < k
  · rw [if_pos hik, List.getElem?_drop, List.getElem?_range' _ _ hik]
    have hlt : s + i < l.length := by omega
    rw [List.getElem?_eq_getElem hlt]
    simp [List.getD_eq_getElem?_getD, List.getElem?_eq_getElem hlt]
  · rw [if_neg hik]
    rw [List.getElem?_eq_none (by rw [List.length_range']; omega)]
    simp

theorem header_append_ne_empty (s : String) : "Контекст сцены:\n" ++ s ≠ "" :=
  append_ne_empty_of_length_pos _ s (by decide)

theorem text_around_ne_empty (w : Nat) (all_lines : List String) (line_num : Nat) :
    build_context_text_around w all_lines line_num ≠ "" := by
  unfold build_context_text_around
  exact header_append_ne_empty _

end SliceLemmas

section OrchestratorLemmas

theorem segregateGo_length (tr : Nat → String → String) (elapsedAt : Nat → ℚ)
    (total : Nat) : ∀ (l : List String) (n : Nat),
      (segregateGo tr elapsedAt total n l).1.length = l.length := by
  intro l
  induction l with
  | nil => intro n; rfl
  | cons a l ih =>
    intro n
    simp only [segregateGo]
    by_cases h : pyStrip a = ""
    · rw [if_pos h]; simp [ih]
    · rw [if_neg h]; simp [ih]

theorem segregateGo_getD (tr : Nat → String → String) (elapsedAt : Nat → ℚ)
    (total : Nat) : ∀ (l : List String) (n k : Nat),
      (segregateGo tr elapsedAt total n l).1.getD k "" =
        (if pyStrip (l.getD k "") = "" then l.getD k ""
         else tr (n + k) (l.getD k "") ++ "\n") := by
  intro l
  induction l with
  | nil =>
    intro n k
    have hempty : pyStrip "" = "" := by decide
    simp [segregateGo, List.getD, hempty]
  | cons a l ih =>
    intro n k
    simp only [segregateGo]
    by_cases h : pyStrip a = ""
    · rw [if_pos h]
      cases k with
      | zero => simp [List.getD, h]
      | succ k' =>
        have := ih (n + 1) k'
        simp only [List.getD_cons_succ]
        rw [this]
        have harith : n + 1 + k' = n + (k' + 1) := by omega
        rw [harith]
    · rw [if_neg h]
      cases k with
      | zero => simp [List.getD, h]
      | succ k' =>
        have := ih (n + 1) k'
        simp only [List.getD_cons_succ]
        rw [this]
        have harith : n + 1 + k' = n + (k' + 1) := by omega
        rw [harith]

theorem segregateGo_reports (tr : Nat → String → String) (elapsedAt : Nat → ℚ)
    (total : Nat) : ∀ (l : List String) (n : Nat),
      (segregateGo tr elapsedAt total n l).2 =
        ((List.enumFrom n l).filter (fun q => pyStrip q.2 ≠ "")).map
          (fun q => print_progress (elapsedAt q.1) q.1 total) := by
  intro l
  induction l with
  | nil => intro n; rfl
  | cons a l ih =>
    intro n
    simp only [segregateGo, List.enumFrom_cons]
    by_cases h : pyStrip a = ""
    · rw [if_pos h]
      rw [List.filter_cons_of_neg (by simp [h])]
      exact ih (n + 1)
    · rw [if_neg h]
      rw [List.filter_cons_of_pos (by simp [h])]
      simp only [List.map_cons]
      rw [ih (n + 1)]

end OrchestratorLemmas

/-- C1: the orchestrator's output has the same length and order as the
input; whitespace-only lines pass through unchanged; every non-blank line
becomes the pipeline result for that index with a trailing `"\n"`; and the
pipeline result is single-line, because any `generate_with_retry` output
contains no line break. -/
theorem orchestrator_preserves_lines (tr : Nat → String → String)
    (elapsedAt : Nat → ℚ) (all_lines : List String) :
    (segregate_and_translate_lines tr elapsedAt all_lines).1.length = all_lines.length
    ∧ (∀ n, n < all_lines.length →
        (pyStrip (all_lines.getD n "") = "" →
          (segregate_and_translate_lines tr elapsedAt all_lines).1.getD n "" =
            all_lines.getD n "")
        ∧ (pyStrip (all_lines.getD n "") ≠ "" →
          (segregate_and_translate_lines tr elapsedAt all_lines).1.getD n "" =
            tr n (all_lines.getD n "") ++ "\n"))
    ∧ (∀ (gen : Nat → String → String) (p : String) (rc : Nat),
        '\n' ∉ ((generate_with_retry gen p rc).1).data) := by
  refine ⟨segregateGo_length tr elapsedAt all_lines.length all_lines 0,
    fun n _ => ⟨?_, ?_⟩,
    fun gen p rc => generateWithRetryGo_no_newline gen rc 0 p⟩
  · intro h
    have hg := segregateGo_getD tr elapsedAt all_lines.length all_lines 0 n
    rw [Nat.zero_add] at hg
    simp only [segregate_and_translate_lines]
    rw [hg, if_pos h]
  · intro h
    have hg := segregateGo_getD tr elapsedAt all_lines.length all_lines 0 n
    rw [Nat.zero_add] at hg
    simp only [segregate_and_translate_lines]
    rw [hg, if_neg h]

/-- Witness for C1 at a concrete two-line input: a non-blank line is
replaced by the translation plus `"\n"` and the whitespace-only line
passes through. -/
theorem orchestrator_preserves_lines_witness :
    (segregate_and_translate_lines (fun _ _ => "T") (fun _ => 0) ["a\n", " \n"]).1.length = 2
    ∧ (segregate_and_translate_lines (fun _ _ => "T") (fun _ => 0) ["a\n", " \n"]).1.getD 0 "" = "T\n"
    ∧ (segregate_and_translate_lines (fun _ _ => "T") (fun _ => 0) ["a\n", " \n"]).1.getD 1 "" = " \n" := by
  refine ⟨(orchestrator_preserves_lines (fun _ _ => "T") (fun _ => 0) ["a\n", " \n"]).1, ?_, ?_⟩
  · have h := ((orchestrator_preserves_lines (fun _ _ => "T") (fun _ => 0)
      ["a\n", " \n"]).2.1 0 (by decide)).2 (by decide)
    rw [h]
    rfl
  · have h := ((orchestrator_preserves_lines (fun _ _ => "T") (fun _ => 0)
      ["a\n", " \n"]).2.1 1 (by decide)).1 (by decide)
    rw [h]
    rfl

/-- C2: the retry wrapper makes at most `retry_count` model calls, returns
the first response that is non-empty after first-line truncation and
stripping, and on exhaustion makes exactly `retry_count` calls and returns
the sentinel `"no response from llm"`. -/
theorem generate_with_retry_spec (gen : Nat → String → String) (p : String)
    (rc : Nat) :
    (generate_with_retry gen p rc).2 ≤ rc
    ∧ (∀ j, j < rc → (∀ i, i < j → respAt gen p i = "") → respAt gen p j ≠ "" →
        generate_with_retry gen p rc = (respAt gen p j, j + 1))
    ∧ ((∀ i, i < rc → respAt gen p i = "") →
        generate_with_retry gen p rc = ("no response from llm", rc)) := by
  refine ⟨?_, ?_, ?_⟩
  · have h := generateWithRetryGo_calls_le gen rc 0 p
    simpa using h
  · intro j hj hk hne
    exact generateWithRetryGo_first_success gen p rc 0 j (Nat.zero_le j)
      (by omega) (fun k _ h2 => hk k h2) hne
  · intro h
    have hall := generateWithRetryGo_all_empty gen p rc 0
      (fun j _ h2 => h j (by omega))
    simpa using hall

/-- Witness for C2: a stub that is empty on the first two attempts and
answers on the third succeeds after exactly 3 calls. -/
theorem generate_with_retry_spec_witness :
    generate_with_retry (fun i _ => if i = 2 then "Привет" else "") "q" 3 =
      ("Привет", 3) := by
  have h := (generate_with_retry_spec
      (fun i _ => if i = 2 then "Привет" else "") "q" 3).2.1 2 (by omega)
    (fun i hi => by interval_cases i <;> decide) (by decide)
  rw [h]
  decide

/-- C3 counterexample: on an empty script, `build_context` does not return
the empty string; the initial index access fails (an `IndexError`,
modelled as `none`). -/
theorem build_context_empty_script_counterexample :
    build_context 4 [] [] ([] : List String) 0 ≠ some "" := by
  decide

/-- C3 amended: the scene excerpt is never the empty string (it always
begins with the scene-context header), so the empty-string return branch
of `build_context` is unreachable; on an empty script `build_context`
fails its initial index access (modelled as `none`) instead of returning
the empty string. -/
theorem build_context_empty_excerpt_amended :
    (∀ (w : Nat) (all_lines : List String) (line_num : Nat),
      build_context_text_around w all_lines line_num ≠ "")
    ∧ (∀ (w : Nat) (names_map : List (String × String))
        (kag_db : List (String × Person)) (line_num : Nat),
      build_context w names_map kag_db [] line_num = none) := by
  refine ⟨text_around_ne_empty, fun w names_map kag_db line_num => ?_⟩
  cases line_num <;> rfl

/-- C4: the scene excerpt consists of exactly the lines with indices in
`[max(0, idx-w), min(len, idx+w+1))` (Nat subtraction is the clamped
`max(0, idx-w)`), in order, under the scene-context header; in particular
with `w = 4` and a 10-line script the excerpt at index 2 is lines 0–6. -/
theorem text_around_window (w : Nat) (all_lines : List String) (line_num : Nat) :
    build_context_text_around w all_lines line_num =
      "Контекст сцены:\n" ++ String.join
        ((List.range' (line_num - w)
            (min all_lines.length (line_num + w + 1) - (line_num - w))).map
          (fun i => all_lines.getD i ""))
    ∧ ∀ (l0 l1 l2 l3 l4 l5 l6 l7 l8 l9 : String),
        build_context_text_around 4 [l0, l1, l2, l3, l4, l5, l6, l7, l8, l9] 2 =
          "Контекст сцены:\n" ++ String.join [l0, l1, l2, l3, l4, l5, l6] := by
  constructor
  · simp only [build_context_text_around]
    by_cases hk : min all_lines.length (line_num + w + 1) - (line_num - w) = 0
    · rw [hk]
      simp
    · have hle : min all_lines.length (line_num + w + 1) ≤ all_lines.length :=
        Nat.min_le_left _ _
      have hs : line_num - w +
          (min all_lines.length (line_num + w + 1) - (line_num - w)) ≤
            all_lines.length := by omega
      rw [drop_take_eq_range'_map all_lines "" (line_num - w)
        (min all_lines.length (line_num + w + 1) - (line_num - w)) hs]
  · intro l0 l1 l2 l3 l4 l5 l6 l7 l8 l9
    rfl

/-- C5: the rendered names section contains exactly the name-dictionary
entries whose key is a literal substring of the target line, one
`key = value` per line under the header; when no key matches, the whole
section (header included) is omitted. -/
theorem names_dict_spec (names_map : List (String × String)) (search_line : String) :
    (∀ p : String × String,
      p ∈ names_map.filter (fun q => pyIn q.1 search_line) ↔
        p ∈ names_map ∧ pyIn p.1 search_line = true)
    ∧ ((∀ p ∈ names_map, ¬ pyIn p.1 search_line = true) →
        build_context_names_dict names_map search_line = "")
    ∧ (∀ rel, rel = names_map.filter (fun q => pyIn q.1 search_line) → rel ≠ [] →
        build_context_names_dict names_map search_line =
          "\nСловарь имён:\n" ++
            String.intercalate "\n" (rel.map (fun p => p.1 ++ " = " ++ p.2)) ++ "\n") := by
  refine ⟨fun p => List.mem_filter, ?_, ?_⟩
  · intro h
    have hfil : names_map.filter (fun q => pyIn q.1 search_line) = [] :=
      List.filter_eq_nil_iff.mpr h
    simp only [build_context_names_dict]
    rw [if_pos hfil]
  · intro rel hrel hne
    subst hrel
    simp only [build_context_names_dict]
    rw [if_neg hne]

/-- Witness for C5 at a concrete dictionary and line: the single matching
entry is rendered under the header. -/
theorem names_dict_spec_witness :
    build_context_names_dict [("あ", "A")] "xあx" = "\nСловарь имён:\nあ = A\n" := by
  have h := (names_dict_spec [("あ", "A")] "xあx").2.2
    ([("あ", "A")].filter (fun q => pyIn q.1 "xあx")) rfl (by decide)
  rw [h]
  decide

/-- C6 counterexample: a speaker database holding an entry for the empty
string makes the index-0 lookup hit, so the rendered description is the
direct-speech one, not the narration default. -/
theorem speaker_empty_key_counterexample :
    build_context 4 [] [("", ⟨"тест", "ж"⟩)] ["abc"] 0 =
      some "\nКонтекст сцены:\nabc\nОписание говорящего: прямая речь, тест, пол: ж\n"
    ∧ ("прямая речь, тест, пол: ж" : String) ≠
        "не прямая речь, описание мира вокруг или действий персонажей" := by
  constructor <;> decide

/-- C6 amended: at index 0 the speaker lookup always uses the empty string
as its key; the rendered description is the narration default for every
speaker database that has no empty-string key. -/
theorem speaker_index_zero_amended (w : Nat) (names_map : List (String × String))
    (kag_db : List (String × Person)) (l : String) (rest : List String) :
    build_context w names_map kag_db (l :: rest) 0 =
      some ("\n" ++ build_context_text_around w (l :: rest) 0 ++
        build_context_names_dict names_map l ++
        "\nОписание говорящего: " ++ build_context_kag_description kag_db "" ++ "\n")
    ∧ (List.lookup "" kag_db = none →
        build_context_kag_description kag_db "" =
          "не прямая речь, описание мира вокруг или действий персонажей") := by
  constructor
  · show (if build_context_text_around w (l :: rest) 0 = "" then some ""
      else some ("\n" ++ build_context_text_around w (l :: rest) 0 ++
        build_context_names_dict names_map l ++
        "\nОписание говорящего: " ++ build_context_kag_description kag_db "" ++ "\n")) = _
    rw [if_neg (text_around_ne_empty w (l :: rest) 0)]
  · intro h
    unfold build_context_kag_description
    rw [h]

/-- Witness for C6 amended at the empty speaker database. -/
theorem speaker_index_zero_amended_witness :
    build_context_kag_description [] "" =
      "не прямая речь, описание мира вокруг или действий персонажей" :=
  (speaker_index_zero_amended 4 [] [] "a" []).2 rfl

/-- C7: the pipeline is exactly the edit stage applied to the translate
stage's output, the edit output is the final result, and a sentinel from
retry exhaustion in the translate stage is passed straight into the edit
stage rather than raising. -/
theorem pipeline_two_stages (llm : String → String → String) (line context : String) :
    run_translate llm line context =
      llm (edit_prompt (llm (translate_prompt (pyStrip line) context) "translation")) "edit"
    ∧ (llm (translate_prompt (pyStrip line) context) "translation" = "no response from llm" →
        run_translate llm line context = llm (edit_prompt "no response from llm") "edit") := by
  constructor
  · rfl
  · intro h
    unfold run_translate translate_with_llm edit_with_llm
    rw [h]

/-- Witness for C7: a generator stuck on the sentinel flows through both
stages and out of the pipeline. -/
theorem pipeline_two_stages_witness :
    run_translate (fun _ _ => "no response from llm") "x" "" = "no response from llm" :=
  (pipeline_two_stages (fun _ _ => "no response from llm") "x" "").2 rfl

/-- C8 counterexample: a file consisting of one blank line is processed
without emitting any progress report, so a report is not emitted for each
line. -/
theorem progress_per_line_counterexample :
    (segregate_and_translate_lines (fun _ _ => "x") (fun _ => 0) ["\n"]).2.length = 0
    ∧ (["\n"] : List String).length = 1 := by
  constructor
  · rfl
  · rfl

/-- C8 amended: a progress report is emitted when the orchestrator begins
each non-blank line (blank lines emit none), with percentage complete by
integer floor division, estimated remaining time
`elapsed / line_num * total - elapsed`, and estimate `0` when no line has
been processed yet. -/
theorem progress_reports_amended (tr : Nat → String → String) (elapsedAt : Nat → ℚ)
    (all_lines : List String) :
    (segregate_and_translate_lines tr elapsedAt all_lines).2 =
      ((List.enumFrom 0 all_lines).filter (fun q => pyStrip q.2 ≠ "")).map
        (fun q => print_progress (elapsedAt q.1) q.1 all_lines.length)
    ∧ (∀ (e : ℚ) (n t : Nat), (print_progress e n t).percent = n * 100 / t)
    ∧ (∀ (e : ℚ) (n t : Nat), 0 < n →
        (print_progress e n t).eta = e / n * t - e)
    ∧ (∀ (e : ℚ) (t : Nat), (print_progress e 0 t).eta = 0) := by
  refine ⟨segregateGo_reports tr elapsedAt all_lines.length all_lines 0,
    fun e n t => rfl, fun e n t h => ?_, fun e t => rfl⟩
  simp only [print_progress]
  rw [if_pos h]

/-- Witness for C8 amended: with 6 s elapsed after 2 of 4 lines the
estimate is 6 s. -/
theorem progress_reports_amended_witness :
    (print_progress 6 2 4).eta = 6 := by
  have h := (progress_reports_amended (fun _ _ => "") (fun _ => 0) []).2.2.1
    6 2 4 (by norm_num)
  rw [h]
  norm_num

/-- C9: `build_context` is defined exactly on in-range indices (an empty
script or out-of-range index fails the unguarded list access), and on
those it never returns the empty string since the scene-context header is
unconditionally prepended. -/
theorem build_context_totality (w : Nat) (names_map : List (String × String))
    (kag_db : List (String × Person)) (all_lines : List String) (line_num : Nat) :
    ((build_context w names_map kag_db all_lines line_num).isSome ↔
      line_num < all_lines.length)
    ∧ (∀ s, build_context w names_map kag_db all_lines line_num = some s → s ≠ "") := by
  constructor
  · constructor
    · intro h
      by_contra hn
      have hx : pyGet all_lines line_num = none :=
        List.get?_eq_none.mpr (by omega)
      simp [build_context, hx] at h
    · intro h
      have h1 : pyGet all_lines line_num = some (all_lines.get ⟨line_num, h⟩) :=
        List.get?_eq_get h
      by_cases h0 : 0 < line_num
      · have h2 : line_num - 1 < all_lines.length := by omega
        have h3 : pyGet all_lines (line_num - 1) =
            some (all_lines.get ⟨line_num - 1, h2⟩) := List.get?_eq_get h2
        simp [build_context, h1, h0, h3, apply_ite Option.isSome]
      · simp [build_context, h1, h0, apply_ite Option.isSome]
  · intro s hs
    cases hx : pyGet all_lines line_num with
    | none =>
      unfold build_context at hs
      rw [hx] at hs
      simp at hs
    | some x =>
      unfold build_context at hs
      rw [hx] at hs
      simp only [Option.some_bind] at hs
      by_cases h0 : 0 < line_num
      · rw [if_pos h0] at hs
        cases hx2 : pyGet all_lines (line_num - 1) with
        | none =>
          rw [hx2] at hs
          simp at hs
        | some y =>
          rw [hx2] at hs
          simp only [Option.map_some', Option.some_bind] at hs
          rw [if_neg (text_around_ne_empty w all_lines line_num)] at hs
          injection hs with hs
          intro hse
          rw [hse] at hs
          have hl := congrArg String.length hs
          rw [String.length_append, String.length_append, String.length_append,
            String.length_append] at hl
          have e1 : ("\n" : String).length = 1 := rfl
          have e2 : ("" : String).length = 0 := rfl
          omega
      · rw [if_neg h0] at hs
        simp only [Option.some_bind] at hs
        rw [if_neg (text_around_ne_empty w all_lines line_num)] at hs
        injection hs with hs
        intro hse
        rw [hse] at hs
        have hl := congrArg String.length hs
        rw [String.length_append, String.length_append, String.length_append,
          String.length_append] at hl
        have e1 : ("\n" : String).length = 1 := rfl
        have e2 : ("" : String).length = 0 := rfl
        omega

/-- Witness for C9: at a concrete one-line script and index 0 the context
is defined and non-empty. -/
theorem build_context_totality_witness :
    ("\nКонтекст сцены:\nabc\nОписание говорящего: не прямая речь, описание мира вокруг или действий персонажей\n" : String) ≠ "" :=
  (build_context_totality 4 [] [] ["abc"] 0).2 _ (by decide)

/-- C10: `run_translate` strips its input line before building the
translate prompt, so leading and trailing whitespace on the line never
changes the result (for any fixed generator behavior). -/
theorem run_translate_strip_invariant (llm : String → String → String)
    (line context : String) :
    run_translate llm line context = run_translate llm (pyStrip line) context := by
  unfold run_translate
  rw [pyStrip_idem]
